import Mathlib

/-!
Shallow embedding of the shipyard-neo control plane ("Bay") and its
in-container runtime ("Ship"), covering the session state machine
(`SessionManager`), the sandbox aggregate (`SandboxManager`), the
idempotency service, and the runtime path resolver.

Conventions of the embedding:
- database commits and driver interactions are recorded as an explicit
  event trace (`Ev`), so that ordering claims (commit-before-driver-call,
  failure commits) can be stated;
- the container driver and the readiness probe are nondeterministic
  external collaborators; their outcomes are supplied as an explicit
  `DriverBehavior` value and universally quantified in theorems;
- timestamps are naturals and fields that no theorem mentions
  (`created_at`, `last_active_at`, `last_observed_at`) are omitted;
- fallible code returns `Except BayErr`.
-/

namespace Shipyard

/-- Session lifecycle states, from `app/models/session.py` (`SessionStatus`);
the state names appear throughout `app/managers/session/session.py`. -/
inductive SessionStatus where
  | pending
  | starting
  | running
  | stopping
  | stopped
  | failed
deriving DecidableEq

/-- Session row, from the fields read and written by
`app/managers/session/session.py` (the model module itself is not in the
sources; fields are those the managers use, per spec section 3).
Timestamp fields are omitted: no claim mentions them. -/
structure Session where
  id : String
  sandbox_id : String
  runtime_type : String
  profile_id : String
  container_id : Option String := none
  endpoint : Option String := none
  desired_state : SessionStatus
  observed_state : SessionStatus
deriving DecidableEq

/-- Modelled from the spec: `Session.is_ready` is not under `src/`
(the `app/models` package is absent); spec section 4.3 step 1 defines
`isReady(session)` as observed_state = running with endpoint set. -/
def Session.is_ready (s : Session) : Bool :=
  s.observed_state == SessionStatus.running && s.endpoint.isSome

/-- Profile configuration, from `app/config.py` (`ProfileConfig`);
resource/env fields are omitted: no claim mentions them. -/
structure ProfileConfig where
  id : String
  image : String := "ship:latest"
  runtime_type : String := "ship"
  capabilities : List String := ["filesystem", "shell", "python"]
  idle_timeout : Nat := 1800
  runtime_port : Option Nat := some 8123
deriving DecidableEq

/-- Structured details attached to an error, from `app/errors.py`
(`BayError.details`; only the keys used by `SessionNotReadyError`). -/
structure ErrDetails where
  sandbox_id : Option String := none
  retry_after_ms : Option Nat := none
deriving DecidableEq

/-- Error values, from `app/errors.py`. Each constructor corresponds to a
`BayError` subclass reachable from the embedded code paths; `driver`
stands for an arbitrary exception escaping a driver call. -/
inductive BayErr where
  | notFound (message : String)
  | sessionNotReady (message : String) (details : ErrDetails)
  | conflict (message : String)
  | validation (message : String)
  | timeout (message : String)
  | driver (message : String)
deriving DecidableEq

/-- Stable error code, from the `code` class attributes in `app/errors.py`. -/
def BayErr.code : BayErr → String
  | .notFound _ => "not_found"
  | .sessionNotReady _ _ => "session_not_ready"
  | .conflict _ => "conflict"
  | .validation _ => "validation_error"
  | .timeout _ => "timeout"
  | .driver _ => "internal_error"

/-- HTTP status, from the `status_code` class attributes in `app/errors.py`. -/
def BayErr.http_status : BayErr → Nat
  | .notFound _ => 404
  | .sessionNotReady _ _ => 503
  | .conflict _ => 409
  | .validation _ => 400
  | .timeout _ => 504
  | .driver _ => 500

/-- Constructor of `SessionNotReadyError` from `app/errors.py` lines 80-91:
`sandbox_id` and `retry_after_ms` enter `details` only when truthy
(nonempty string, nonzero number). -/
def mkSessionNotReady (message : String) (sandbox_id : Option String)
    (retry_after_ms : Option Nat) : BayErr :=
  BayErr.sessionNotReady message
    { sandbox_id :=
        match sandbox_id with
        | some s => if s = "" then none else some s
        | none => none
      retry_after_ms :=
        match retry_after_ms with
        | some n => if n = 0 then none else some n
        | none => none }

/-- Observable events of a `SessionManager` operation: committed session
states and driver / probe interactions, in program order. -/
inductive Ev where
  | commit (s : Session)
  | driverCreate
  | driverStart
  | driverStop
  | driverDestroy
  | probe
  | deleteRow
deriving DecidableEq

/-- Whether an event is a database commit of a session state. -/
def Ev.isCommit : Ev → Bool
  | .commit _ => true
  | _ => false

/-- Whether an event commits a session whose observed_state is failed. -/
def Ev.isFailedCommit : Ev → Bool
  | .commit s => s.observed_state == SessionStatus.failed
  | _ => false

/-- Outcomes of the external collaborators during one `ensure_running`
call: result of `driver.create`, result of `driver.start`, and the
sequence of `/health` probe outcomes observed before the 120 s budget
is exhausted (`true` = HTTP 200). -/
structure DriverBehavior where
  createRes : Except String String
  startRes : Except String String
  probe : List Bool

/-- Readiness probe loop, from `SessionManager._wait_for_ready`
(`app/managers/session/session.py` lines 177-245). The loop polls
`GET endpoint/health` with backoff until a 200 or until the elapsed-time
budget is exhausted; the finite list `responses` is the sequence of
outcomes observed within the budget. On exhaustion it raises
`SessionNotReadyError` whose `sandbox_id` argument is given the value of
the `session_id` parameter (line 243 of the source). -/
def waitForReady (responses : List Bool) (session_id : String) :
    Except BayErr Unit :=
  match responses with
  | [] => .error (mkSessionNotReady "Runtime failed to become ready"
      (some session_id) (some 1000))
  | r :: rest => if r then .ok () else waitForReady rest session_id

/-- The state written by lines 135-136 of the source: desired_state
running, observed_state starting. -/
def startingState (s : Session) : Session :=
  { s with
    desired_state := SessionStatus.running
    observed_state := SessionStatus.starting }

/-- The state written by line 171 of the source: observed_state failed. -/
def failedState (s : Session) : Session :=
  { s with observed_state := SessionStatus.failed }

/-- Lines 133-147 of `SessionManager.ensure_running`: when `container_id`
is null, set desired/observed state, commit, call `driver.create`, persist
the container id, commit. A create failure is not caught by any handler
in `ensure_running`: the exception propagates with no further commit. -/
def createPhase (b : DriverBehavior) (session : Session) :
    Except BayErr Session × List Ev :=
  match session.container_id with
  | none =>
    let s1 := startingState session
    match b.createRes with
    | .error e => (.error (BayErr.driver e), [Ev.commit s1, Ev.driverCreate])
    | .ok cid =>
      let s2 := { s1 with container_id := some cid }
      (.ok s2, [Ev.commit s1, Ev.driverCreate, Ev.commit s2])
  | some _ => (.ok session, [])

/-- Lines 149-173 of `SessionManager.ensure_running`: when the observed
state is not running, call `driver.start`, set the endpoint, run the
readiness probe, then mark running and commit; any exception in this
region is caught, observed_state is set to failed and committed, and the
exception is re-raised. -/
def startPhase (b : DriverBehavior) (s : Session) :
    Except BayErr Session × List Ev :=
  if s.observed_state != SessionStatus.running then
    match b.startRes with
    | .error e =>
      (.error (BayErr.driver e), [Ev.driverStart, Ev.commit (failedState s)])
    | .ok ep =>
      let s3 := { s with endpoint := some ep }
      match waitForReady b.probe s3.id with
      | .error err =>
        (.error err, [Ev.driverStart, Ev.probe, Ev.commit (failedState s3)])
      | .ok _ =>
        let s4 := { s3 with observed_state := SessionStatus.running }
        (.ok s4, [Ev.driverStart, Ev.probe, Ev.commit s4])
  else (.ok s, [])

/-- `SessionManager.ensure_running` (`app/managers/session/session.py`
lines 94-175): return immediately when ready; raise `SessionNotReadyError`
when the observed state is starting; otherwise run the create phase and
the start phase, concatenating their event traces. -/
def ensureRunning (b : DriverBehavior) (session : Session) :
    Except BayErr Session × List Ev :=
  if session.is_ready then (.ok session, [])
  else if session.observed_state == SessionStatus.starting then
    (.error (mkSessionNotReady "Session is starting"
      (some session.sandbox_id) (some 1000)), [])
  else
    match createPhase b session with
    | (.error e, evs) => (.error e, evs)
    | (.ok s, evs) =>
      let r := startPhase b s
      (r.1, evs ++ r.2)

/-- `SessionManager.create` (`app/managers/session/session.py` lines
47-87): persists a session with desired and observed state pending and
`runtime_type` set to the literal string "ship". The generated uuid id is
abstracted into the `session_id` parameter; the `workspace` parameter of
the source is unused by its body and omitted. The returned trace records
that the only interaction is the single commit (no driver call). -/
def createSession (session_id : String) (sandbox_id : String)
    (profile : ProfileConfig) : Session × List Ev :=
  let session : Session := {
    id := session_id
    sandbox_id := sandbox_id
    runtime_type := "ship"
    profile_id := profile.id
    container_id := none
    endpoint := none
    desired_state := SessionStatus.pending
    observed_state := SessionStatus.pending }
  (session, [Ev.commit session])

/-- `SessionManager.stop` (`app/managers/session/session.py` lines
247-265): commit desired=stopped/observed=stopping, stop the container
when one exists, then commit observed=stopped with the endpoint cleared.
Returns the final session state and the trace. -/
def stopSession (s : Session) : Session × List Ev :=
  let s1 := { s with
    desired_state := SessionStatus.stopped
    observed_state := SessionStatus.stopping }
  let s2 := { s1 with
    observed_state := SessionStatus.stopped
    endpoint := none }
  (s2, [Ev.commit s1]
    ++ (if s.container_id.isSome then [Ev.driverStop] else [])
    ++ [Ev.commit s2])

/-- `SessionManager.destroy` (`app/managers/session/session.py` lines
267-279): destroy the container when one exists, then delete the row. -/
def destroySession (s : Session) : List Ev :=
  (if s.container_id.isSome then [Ev.driverDestroy] else []) ++ [Ev.deleteRow]

/-- Container states reported by the driver, from `app/drivers/base.py`
(`ContainerStatus`). -/
inductive ContainerStatus where
  | created
  | running
  | exited
  | removing
  | not_found
deriving DecidableEq

/-- Container status report, from `app/drivers/base.py` (`ContainerInfo`;
`exit_code` omitted: no claim mentions it). -/
structure ContainerInfo where
  status : ContainerStatus
  endpoint : Option String := none
deriving DecidableEq

/-- `SessionManager.refresh_status` (`app/managers/session/session.py`
lines 281-315): map the driver-reported container status onto the session
row and commit. With no container id the session is returned unchanged.
Note the exited and created branches leave `endpoint` untouched. -/
def refreshStatus (info : ContainerInfo) (s : Session) : Session :=
  if s.container_id.isNone then s
  else
    match info.status with
    | .running => { s with
        observed_state := SessionStatus.running
        endpoint := info.endpoint }
    | .created => { s with observed_state := SessionStatus.pending }
    | .exited => { s with observed_state := SessionStatus.stopped }
    | .not_found => { s with
        observed_state := SessionStatus.stopped
        container_id := none }
    | .removing => s

/-- The session invariant of spec section 3: `endpoint` is non-null
exactly when the observed state is running. -/
def sessionInv (s : Session) : Bool :=
  s.endpoint.isSome == (s.observed_state == SessionStatus.running)

/-- Whether a commit event commits an invariant-satisfying state
(non-commit events count as satisfying). -/
def Ev.commitInv : Ev → Bool
  | .commit s => sessionInv s
  | _ => true

/-- Derived sandbox status values, from `app/models/sandbox.py`
(`SandboxStatus`, referenced by `app/api/v1/sandboxes.py`). -/
inductive SandboxStatus where
  | idle
  | starting
  | ready
  | stopped
  | deleted
deriving DecidableEq

/-- Sandbox row, from the fields read and written by
`app/managers/sandbox/sandbox.py` (the model module itself is not in the
sources; fields are those the manager uses, per spec section 3).
Timestamps are naturals; `created_at` and `last_active_at` are omitted:
no claim mentions them. -/
structure Sandbox where
  id : String
  owner : String
  profile_id : String
  workspace_id : String
  current_session_id : Option String := none
  expires_at : Option Nat := none
  idle_expires_at : Option Nat := none
  deleted_at : Option Nat := none
deriving DecidableEq

/-- Modelled from the spec: `Sandbox.compute_status` lives in the absent
`app/models` package; spec section 3 derives the status as idle with no
current session, starting for pending or starting, ready for running,
stopped for stopped or failed, deleted when `deleted_at` is set. The
source is silent on a stopping session; it is grouped with stopped. -/
def computeStatus (sb : Sandbox) (current : Option Session) : SandboxStatus :=
  if sb.deleted_at.isSome then SandboxStatus.deleted
  else
    match current with
    | none => SandboxStatus.idle
    | some s =>
      match s.observed_state with
      | .pending => SandboxStatus.starting
      | .starting => SandboxStatus.starting
      | .running => SandboxStatus.ready
      | .stopping => SandboxStatus.stopped
      | .stopped => SandboxStatus.stopped
      | .failed => SandboxStatus.stopped

/-- `SandboxManager.get` (`app/managers/sandbox/sandbox.py` lines
140-165): select by id, owner, and `deleted_at IS NULL`; raise
`NotFoundError` when no row matches. The table is represented as the
list of its rows. -/
def sandboxGet (db : List Sandbox) (sandbox_id : String) (owner : String) :
    Except BayErr Sandbox :=
  match db.find? (fun sb =>
      sb.id == sandbox_id && sb.owner == owner && sb.deleted_at.isNone) with
  | some sb => .ok sb
  | none => .error (BayErr.notFound ("Sandbox not found: " ++ sandbox_id))

/-- Row filter of `SandboxManager.list` (`app/managers/sandbox/sandbox.py`
lines 186-194): same owner, not soft-deleted, and id strictly greater
than the cursor when one is given. The `status` argument of `list` is
accepted by the source but never used in the query. -/
def listPred (owner : String) (cursor : Option String) (sb : Sandbox) :
    Bool :=
  sb.owner == owner && sb.deleted_at.isNone &&
    (match cursor with
     | some c => decide (c < sb.id)
     | none => true)

/-- `SandboxManager.list` (`app/managers/sandbox/sandbox.py` lines
167-204): filter, order by id, fetch `limit + 1` rows, truncate to
`limit`, and set `next_cursor` to the last returned id when an extra row
was fetched. The list `db` stands for the table read in id order, so the
`ORDER BY id` is the hypothesis that `db` is sorted in the theorems. -/
def sandboxList (db : List Sandbox) (owner : String)
    (status : Option SandboxStatus) (limit : Nat) (cursor : Option String) :
    List Sandbox × Option String :=
  let rows := (db.filter (listPred owner cursor)).take (limit + 1)
  if rows.length > limit then
    let items := rows.take limit
    (items, items.getLast?.map (fun sb => sb.id))
  else (rows, none)

/-- The re-read inside `SandboxManager.ensure_running`
(`app/managers/sandbox/sandbox.py` lines 231-245): after acquiring the
per-sandbox lock the row is selected again, by id alone
(`select(Sandbox).where(Sandbox.id == sandbox_id).with_for_update()`),
raising `NotFoundError` only when no row with that id exists at all. -/
def sandboxEnsureRunningReread (db : List Sandbox) (sandbox_id : String) :
    Except BayErr Sandbox :=
  match db.find? (fun sb => sb.id == sandbox_id) with
  | some sb => .ok sb
  | none => .error (BayErr.notFound ("Sandbox not found: " ++ sandbox_id))

/-- `POST /sandboxes/{id}/stop` (`app/api/v1/sandboxes.py` lines 186-198):
resolve the sandbox through `SandboxManager.get`, then stop it. Only the
visibility gate matters to the claims; the stop effect is summarised by
the returned sandbox on which it acts. -/
def apiStop (db : List Sandbox) (sandbox_id : String) (owner : String) :
    Except BayErr Sandbox :=
  match sandboxGet db sandbox_id owner with
  | .error e => .error e
  | .ok sb => .ok sb

/-- `POST /sandboxes/{id}/keepalive` (`app/api/v1/sandboxes.py` lines
171-183): resolve through `SandboxManager.get`, then extend timers. -/
def apiKeepalive (db : List Sandbox) (sandbox_id : String) (owner : String) :
    Except BayErr Sandbox :=
  match sandboxGet db sandbox_id owner with
  | .error e => .error e
  | .ok sb => .ok sb

/-- `DELETE /sandboxes/{id}` (`app/api/v1/sandboxes.py` lines 201-214):
resolve through `SandboxManager.get`, then delete. -/
def apiDelete (db : List Sandbox) (sandbox_id : String) (owner : String) :
    Except BayErr Sandbox :=
  match sandboxGet db sandbox_id owner with
  | .error e => .error e
  | .ok sb => .ok sb

/-!
Runtime path resolver (`src/pkgs/ship/app/workspace.py`). Paths are
represented by their component lists; a component list never carries the
leading slash, so `["workspace"]` stands for the absolute `/workspace`.
-/

/-- The fixed workspace root `/workspace` of `ship/app/workspace.py`
line 12, as its component list. -/
def WORKSPACE_ROOT : List String := ["workspace"]

/-- Split of a character list at each separator, returning the leading
segment and the remaining segments (the recursion behind splitting a
string on the slash character). -/
def splitSlashAux : List Char → List Char × List (List Char)
  | [] => ([], [])
  | c :: rest =>
    let r := splitSlashAux rest
    if c = '/' then ([], r.1 :: r.2)
    else (c :: r.1, r.2)

/-- Component split of a path string, following `pathlib` construction:
split on the slash, then drop empty components (repeated or trailing
separators) and `.` components. -/
def splitPath (p : String) : List String :=
  let r := splitSlashAux p.toList
  ((r.1 :: r.2).map String.mk).filter (fun c => c ≠ "" && c ≠ ".")

/-- POSIX absoluteness test of `pathlib.Path.is_absolute`: the path
begins with the separator. -/
def isAbsolutePath (p : String) : Bool :=
  match p.toList with
  | [] => false
  | c :: _ => c = '/'

/-- Normalisation step of `Path.resolve` on an absolute path (symlinks
aside): process components left to right, `..` removing the previous
component and staying at the root when there is none. -/
def normalizeFrom (acc : List String) : List String → List String
  | [] => acc
  | c :: rest =>
    if c = ".." then normalizeFrom acc.dropLast rest
    else normalizeFrom (acc ++ [c]) rest

/-- `Path.resolve` of an absolute path given by its components. -/
def normalizePath (comps : List String) : List String :=
  normalizeFrom [] comps

/-- `resolve_path` (`ship/app/workspace.py` lines 26-54): join relative
paths onto the workspace root, resolve, and accept exactly when the
workspace root is a component prefix of the result (`Path.relative_to`),
otherwise raise HTTP 403. -/
def resolve_path (path : String) : Except Nat (List String) :=
  let workspace_dir := WORKSPACE_ROOT
  let candidate :=
    if isAbsolutePath path then splitPath path
    else workspace_dir ++ splitPath path
  let resolved := normalizePath candidate
  if workspace_dir.isPrefixOf resolved then .ok resolved
  else .error 403

/-!
Idempotency service (`src/pkgs/bay/app/services/idempotency.py`). The
`IdempotencyKey` table is the list of its rows; time is a natural.
-/

/-- Idempotency record, from the construction in `IdempotencyService.save`
(`app/services/idempotency.py` lines 227-235). -/
structure IdemRecord where
  owner : String
  key : String
  request_fingerprint : String
  response_snapshot : String
  status_code : Nat
  created_at : Nat
  expires_at : Nat
deriving DecidableEq

/-- Modelled from the spec: `IdempotencyKey.is_expired` lives in the
absent `app/models` package; spec section 3 treats records with
`expires_at ≤ now` as absent. -/
def IdemRecord.is_expired (r : IdemRecord) (now : Nat) : Bool :=
  r.expires_at ≤ now

/-- Character class of the key regex `[a-zA-Z0-9_-]` from
`app/services/idempotency.py` line 30. -/
def isKeyChar (c : Char) : Bool :=
  c.isAlphanum || c == '-' || c == '_'

/-- `IdempotencyService.validate_key` (`app/services/idempotency.py`
lines 73-87): full match of `^[a-zA-Z0-9_-]{1,128}$`. -/
def validate_key (key : String) : Bool :=
  1 ≤ key.length && key.length ≤ 128 && key.toList.all isKeyChar

/-- `IdempotencyService.compute_fingerprint` (`app/services/idempotency.py`
lines 89-102) produces the SHA-256 digest of `method:path:body`; the
digest is modelled by its preimage string, which determines it. -/
def compute_fingerprint (path : String) (method : String) (body : String) :
    String :=
  method ++ ":" ++ path ++ ":" ++ body

/-- Cached response returned by `check`, from `app/services/idempotency.py`
(`CachedResponse`; the response dict is kept as its JSON snapshot). -/
structure CachedResponse where
  response : String
  status_code : Nat
deriving DecidableEq

/-- `IdempotencyService.check` (`app/services/idempotency.py` lines
104-188): disabled returns null; an invalid key raises `ConflictError`;
a missing record returns null; an expired record is deleted and null is
returned; a fingerprint mismatch raises `ConflictError`; otherwise the
stored snapshot is returned with its original status code. The result
carries the table after the lazy deletion. -/
def idemCheck (enabled : Bool) (db : List IdemRecord) (now : Nat)
    (owner : String) (key : String) (path : String) (method : String)
    (body : String) : Except BayErr (Option CachedResponse × List IdemRecord) :=
  if !enabled then .ok (none, db)
  else if !validate_key key then
    .error (BayErr.conflict "Invalid Idempotency-Key format")
  else
    match db.find? (fun r => r.owner == owner && r.key == key) with
    | none => .ok (none, db)
    | some r =>
      if r.is_expired now then
        .ok (none, db.eraseP (fun r2 => r2.owner == owner && r2.key == key))
      else
        let fingerprint := compute_fingerprint path method body
        if r.request_fingerprint != fingerprint then
          .error (BayErr.conflict
            "Idempotency key already used with different request parameters")
        else .ok (some ⟨r.response_snapshot, r.status_code⟩, db)

/-- `IdempotencyService.save` (`app/services/idempotency.py` lines
190-255): disabled writes nothing; otherwise build the record and insert
it. The insert (`add` + `flush`) sits in a `try` whose handler catches
every exception, rolls the transaction back, and returns normally; the
`insertFails` flag is the outcome of the flush. The function therefore
always returns a table and never an error. -/
def idemSave (enabled : Bool) (ttl_hours : Nat) (db : List IdemRecord)
    (now : Nat) (owner : String) (key : String) (path : String)
    (method : String) (body : String) (response : String)
    (status_code : Nat) (insertFails : Bool) : List IdemRecord :=
  if !enabled then db
  else
    let fingerprint := compute_fingerprint path method body
    let record : IdemRecord := {
      owner := owner
      key := key
      request_fingerprint := fingerprint
      response_snapshot := response
      status_code := status_code
      created_at := now
      expires_at := now + ttl_hours * 3600 }
    if insertFails then db else db ++ [record]

/-- `create_sandbox` (`app/api/v1/sandboxes.py` lines 73-128): check the
idempotency key when one is supplied and return any cached response with
its original status; otherwise create the sandbox, answer 201 with its
representation, and save the idempotency record. Sandbox creation is
taken as succeeded (`response` is its serialised representation); the
result is the HTTP outcome paired with the final idempotency table. -/
def createSandboxEndpoint (enabled : Bool) (ttl_hours : Nat)
    (db : List IdemRecord) (now : Nat) (owner : String) (body : String)
    (idempotency_key : Option String) (response : String)
    (saveFails : Bool) :
    Except BayErr (Nat × String) × List IdemRecord :=
  let path := "/v1/sandboxes"
  match idempotency_key with
  | none => (.ok (201, response), db)
  | some key =>
    match idemCheck enabled db now owner key path "POST" body with
    | .error e => (.error e, db)
    | .ok (some cached, db1) => (.ok (cached.status_code, cached.response), db1)
    | .ok (none, db1) =>
      let db2 := idemSave enabled ttl_hours db1 now owner key path "POST"
        body response 201 saveFails
      (.ok (201, response), db2)

/-!
Concrete instances used by counterexamples and witnesses.
-/

/-- The profile of the repository test
`test_session_inherits_runtime_type_from_profile`. -/
def customProfile : ProfileConfig :=
  { id := "custom-runtime"
    runtime_type := "custom"
    image := "custom-runtime:latest"
    runtime_port := some 9000 }

/-- A stopped session that already holds a container id. -/
def c1Session : Session :=
  { id := "sess-c1"
    sandbox_id := "sandbox-c1"
    runtime_type := "ship"
    profile_id := "python-default"
    container_id := some "cont-c1"
    endpoint := none
    desired_state := SessionStatus.stopped
    observed_state := SessionStatus.stopped }

/-- A session in observed state starting. -/
def c1StartingSession : Session :=
  { id := "sess-c1s"
    sandbox_id := "sandbox-c1s"
    runtime_type := "ship"
    profile_id := "python-default"
    container_id := some "cont-c1s"
    endpoint := none
    desired_state := SessionStatus.running
    observed_state := SessionStatus.starting }

/-- A freshly created session: no container, observed state pending. -/
def c1FreshSession : Session :=
  { id := "sess-c1f"
    sandbox_id := "sandbox-c1f"
    runtime_type := "ship"
    profile_id := "python-default"
    container_id := none
    endpoint := none
    desired_state := SessionStatus.pending
    observed_state := SessionStatus.pending }

/-- A driver that succeeds everywhere: create, start, and first probe. -/
def c1Behavior : DriverBehavior :=
  { createRes := .ok "cont-new"
    startRes := .ok "http://10.0.0.5:8123"
    probe := [true] }

/-- A freshly created session for the create-failure path. -/
def c2Session : Session :=
  { id := "sess-c2"
    sandbox_id := "sandbox-c2"
    runtime_type := "ship"
    profile_id := "python-default"
    container_id := none
    endpoint := none
    desired_state := SessionStatus.pending
    observed_state := SessionStatus.pending }

/-- A driver whose container create raises. -/
def c2Behavior : DriverBehavior :=
  { createRes := .error "boom"
    startRes := .ok "http://10.0.0.5:8123"
    probe := [true] }

/-- A session for the start-failure path: container exists, stopped. -/
def c2StoppedSession : Session :=
  { id := "sess-c2b"
    sandbox_id := "sandbox-c2b"
    runtime_type := "ship"
    profile_id := "python-default"
    container_id := some "cont-c2b"
    endpoint := none
    desired_state := SessionStatus.running
    observed_state := SessionStatus.stopped }

/-- A driver whose container start raises. -/
def c2StartFailBehavior : DriverBehavior :=
  { createRes := .ok "cont-new"
    startRes := .error "start boom"
    probe := [true] }

/-- A running session with an endpoint, satisfying the invariant. -/
def c3Session : Session :=
  { id := "sess-c3"
    sandbox_id := "sandbox-c3"
    runtime_type := "ship"
    profile_id := "python-default"
    container_id := some "cont-c3"
    endpoint := some "http://10.0.0.7:8123"
    desired_state := SessionStatus.running
    observed_state := SessionStatus.running }

/-- A driver status report: the container has exited. -/
def c3ExitedInfo : ContainerInfo :=
  { status := ContainerStatus.exited, endpoint := none }

/-- A soft-deleted sandbox. -/
def c4Deleted : Sandbox :=
  { id := "sandbox-c4"
    owner := "owner-c4"
    profile_id := "python-default"
    workspace_id := "ws-c4"
    current_session_id := none
    deleted_at := some 5 }

/-- A one-row sandbox table holding only the soft-deleted sandbox. -/
def c4Db : List Sandbox := [c4Deleted]

/-- A record for the idempotency check: stored under ("owner-c6", "key-1")
with the fingerprint of a POST /v1/sandboxes body. -/
def c6Record : IdemRecord :=
  { owner := "owner-c6"
    key := "key-1"
    request_fingerprint := compute_fingerprint "/v1/sandboxes" "POST" "b1"
    response_snapshot := "resp"
    status_code := 201
    created_at := 0
    expires_at := 3600 }

/-- A live sandbox with no current session: derived status idle. -/
def c7Sandbox : Sandbox :=
  { id := "sandbox-c7"
    owner := "owner-c7"
    profile_id := "python-default"
    workspace_id := "ws-c7"
    current_session_id := none }

/-- A second live sandbox of the same owner, with a larger id. -/
def c7Sandbox2 : Sandbox :=
  { id := "sandbox-c8"
    owner := "owner-c7"
    profile_id := "python-default"
    workspace_id := "ws-c8"
    current_session_id := none }

/-- A two-row sandbox table in ascending id order. -/
def c7Db : List Sandbox := [c7Sandbox, c7Sandbox2]

/-- A stopped session with a container, whose session id differs from its
sandbox id. -/
def c8Session : Session :=
  { id := "sess-c8"
    sandbox_id := "sandbox-c8x"
    runtime_type := "ship"
    profile_id := "python-default"
    container_id := some "cont-c8"
    endpoint := none
    desired_state := SessionStatus.running
    observed_state := SessionStatus.stopped }

/-- A driver whose start succeeds but whose probe budget is exhausted:
every health response observed within the budget is a failure. -/
def c8Behavior : DriverBehavior :=
  { createRes := .ok "cont-new"
    startRes := .ok "http://10.0.0.9:8123"
    probe := [false, false, false] }

end Shipyard

namespace Shipyard

/-! Helper lemmas. -/

theorem mem_normalizeFrom {x : String} :
    ∀ (l acc : List String), x ∈ normalizeFrom acc l →
      x ∈ acc ∨ (x ∈ l ∧ x ≠ "..")
  | [], _, h => Or.inl h
  | c :: rest, acc, h => by
    unfold normalizeFrom at h
    split at h
    · rcases mem_normalizeFrom rest acc.dropLast h with h1 | h2
      · exact Or.inl ((List.dropLast_sublist acc).subset h1)
      · exact Or.inr ⟨List.mem_cons_of_mem _ h2.1, h2.2⟩
    · rename_i hc
      rcases mem_normalizeFrom rest (acc ++ [c]) h with h1 | h2
      · rcases List.mem_append.1 h1 with h3 | h4
        · exact Or.inl h3
        · have hxc : x = c := by simpa using h4
          subst hxc
          exact Or.inr ⟨List.mem_cons_self _ _, hc⟩
      · exact Or.inr ⟨List.mem_cons_of_mem _ h2.1, h2.2⟩

theorem mem_splitPath_ne {c : String} {p : String} (h : c ∈ splitPath p) :
    c ≠ "" ∧ c ≠ "." := by
  unfold splitPath at h
  have := (List.mem_filter.1 h).2
  simpa using this

theorem ensureRunning_ready (b : DriverBehavior) (s : Session)
    (h : s.is_ready = true) : ensureRunning b s = (.ok s, []) := by
  simp [ensureRunning, h]

theorem ensureRunning_starting (b : DriverBehavior) (s : Session)
    (h : s.observed_state = SessionStatus.starting) :
    ensureRunning b s = (.error (mkSessionNotReady "Session is starting"
      (some s.sandbox_id) (some 1000)), []) := by
  have hnr : s.is_ready = false := by
    simp [Session.is_ready, h]
  simp [ensureRunning, hnr, h]

theorem ensureRunning_eq_phases (b : DriverBehavior) (s : Session)
    (hr : s.is_ready = false) (hns : s.observed_state ≠ SessionStatus.starting) :
    ensureRunning b s =
      match createPhase b s with
      | (.error e, evs) => (.error e, evs)
      | (.ok t, evs) => ((startPhase b t).1, evs ++ (startPhase b t).2) := by
  have hns2 : (s.observed_state == SessionStatus.starting) = false := by
    simpa using hns
  simp only [ensureRunning, hr, Bool.false_eq_true, if_false, hns2]

theorem createPhase_none_error (b : DriverBehavior) (s : Session) (e : String)
    (hcn : s.container_id = none) (hce : b.createRes = .error e) :
    createPhase b s =
      (.error (BayErr.driver e), [Ev.commit (startingState s), Ev.driverCreate]) := by
  simp [createPhase, hcn, hce]

theorem createPhase_none_ok (b : DriverBehavior) (s : Session) (cid : String)
    (hcn : s.container_id = none) (hco : b.createRes = .ok cid) :
    createPhase b s =
      (.ok { startingState s with container_id := some cid },
       [Ev.commit (startingState s), Ev.driverCreate,
        Ev.commit { startingState s with container_id := some cid }]) := by
  simp [createPhase, hcn, hco]

theorem createPhase_some (b : DriverBehavior) (s : Session) (c : String)
    (hcs : s.container_id = some c) : createPhase b s = (.ok s, []) := by
  simp [createPhase, hcs]

theorem startPhase_running (b : DriverBehavior) (t : Session)
    (h : t.observed_state = SessionStatus.running) :
    startPhase b t = (.ok t, []) := by
  simp [startPhase, h]

theorem startPhase_start_error (b : DriverBehavior) (t : Session) (e : String)
    (hnr : t.observed_state ≠ SessionStatus.running)
    (hse : b.startRes = .error e) :
    startPhase b t =
      (.error (BayErr.driver e), [Ev.driverStart, Ev.commit (failedState t)]) := by
  have h2 : (t.observed_state != SessionStatus.running) = true := by
    simpa using hnr
  simp [startPhase, h2, hse]

theorem startPhase_probe_error (b : DriverBehavior) (t : Session) (ep : String)
    (err : BayErr) (hnr : t.observed_state ≠ SessionStatus.running)
    (hso : b.startRes = .ok ep)
    (hpe : waitForReady b.probe t.id = .error err) :
    startPhase b t =
      (.error err, [Ev.driverStart, Ev.probe,
        Ev.commit (failedState { t with endpoint := some ep })]) := by
  have h2 : (t.observed_state != SessionStatus.running) = true := by
    simpa using hnr
  simp [startPhase, h2, hso, hpe]

theorem startPhase_ok (b : DriverBehavior) (t : Session) (ep : String)
    (hnr : t.observed_state ≠ SessionStatus.running)
    (hso : b.startRes = .ok ep)
    (hpo : waitForReady b.probe t.id = .ok ()) :
    startPhase b t =
      (.ok ({ t with endpoint := some ep, observed_state := SessionStatus.running } : Session),
       [Ev.driverStart, Ev.probe,
        Ev.commit ({ t with endpoint := some ep, observed_state := SessionStatus.running } : Session)]) := by
  have h2 : (t.observed_state != SessionStatus.running) = true := by
    simpa using hnr
  simp [startPhase, h2, hso, hpo]

theorem waitForReady_error_eq (sid : String) :
    ∀ (rs : List Bool) (e : BayErr), waitForReady rs sid = .error e →
      e = mkSessionNotReady "Runtime failed to become ready" (some sid) (some 1000)
  | [], e, h => by
    simp only [waitForReady] at h
    exact (Except.error.inj h).symm
  | r :: rest, e, h => by
    simp only [waitForReady] at h
    by_cases hr : r = true
    · rw [if_pos hr] at h
      exact absurd h (by simp)
    · rw [if_neg hr] at h
      exact waitForReady_error_eq sid rest e h

theorem waitForReady_all_false (sid : String) :
    ∀ (rs : List Bool), rs.all (fun r => r == false) = true →
      waitForReady rs sid =
        .error (mkSessionNotReady "Runtime failed to become ready"
          (some sid) (some 1000))
  | [], _ => rfl
  | r :: rest, h => by
    simp only [List.all_cons, Bool.and_eq_true, beq_iff_eq] at h
    simp only [waitForReady, h.1, if_false, Bool.false_eq_true]
    exact waitForReady_all_false sid rest (by
      simp only [List.all_eq_true, beq_iff_eq]
      intro x hx
      have := h.2
      simp only [List.all_eq_true, beq_iff_eq] at this
      exact this x hx)

/-! Claim theorems. -/

/-- C5: every path accepted by `resolve_path` resolves to a fully
normalised component list (no empty, dot, or dot-dot component remains)
lying under the workspace root `/workspace`, and every path whose
resolution escapes the root is rejected with HTTP 403, so no filesystem
call performed on an accepted path can reach outside the mount path. -/
theorem C5_path_containment (path : String) :
    (∀ q, resolve_path path = .ok q →
        WORKSPACE_ROOT.isPrefixOf q = true ∧
        ∀ c ∈ q, c ≠ ".." ∧ c ≠ "." ∧ c ≠ "") ∧
    (∀ n, resolve_path path = .error n → n = 403) := by
  have memCand : ∀ c : String,
      (c ∈ splitPath path ∨ c ∈ WORKSPACE_ROOT ++ splitPath path) →
      c ≠ "." ∧ c ≠ "" := by
    intro c h
    rcases h with h | h
    · have := mem_splitPath_ne h
      exact ⟨this.2, this.1⟩
    · rcases List.mem_append.1 h with h | h
      · have hc : c = "workspace" := by simpa [WORKSPACE_ROOT] using h
        subst hc
        exact ⟨by decide, by decide⟩
      · have := mem_splitPath_ne h
        exact ⟨this.2, this.1⟩
  constructor
  · intro q hq
    simp only [resolve_path] at hq
    by_cases habs : isAbsolutePath path = true
    · rw [if_pos habs] at hq
      split at hq
      · rename_i hpre
        cases hq
        refine ⟨hpre, fun c hc => ?_⟩
        rcases mem_normalizeFrom _ _ hc with h1 | h2
        · exact absurd h1 (List.not_mem_nil c)
        · have := memCand c (Or.inl h2.1)
          exact ⟨h2.2, this.1, this.2⟩
      · cases hq
    · rw [if_neg habs] at hq
      split at hq
      · rename_i hpre
        cases hq
        refine ⟨hpre, fun c hc => ?_⟩
        rcases mem_normalizeFrom _ _ hc with h1 | h2
        · exact absurd h1 (List.not_mem_nil c)
        · have := memCand c (Or.inr h2.1)
          exact ⟨h2.2, this.1, this.2⟩
      · cases hq
  · intro n hn
    simp only [resolve_path] at hn
    by_cases habs : isAbsolutePath path = true
    · rw [if_pos habs] at hn
      split at hn
      · cases hn
      · cases hn
        rfl
    · rw [if_neg habs] at hn
      split at hn
      · cases hn
      · cases hn
        rfl

/-- C5 witness: the relative path `subdir/file.txt` is accepted and its
resolution is contained under the workspace root, while the traversal
path `../etc/passwd` is rejected with HTTP 403. -/
theorem C5_path_containment_witness :
    WORKSPACE_ROOT.isPrefixOf ["workspace", "subdir", "file.txt"] = true ∧
    (403 : Nat) = 403 := by
  refine ⟨((C5_path_containment "subdir/file.txt").1
      ["workspace", "subdir", "file.txt"] ?_).1,
    (C5_path_containment "../etc/passwd").2 403 ?_⟩
  · rfl
  · rfl

/-- C9: `SessionManager.create` persists desired and observed state
pending and performs no driver call, but stores the literal runtime type
"ship" rather than `profile.runtime_type`: at the profile of the
repository test `test_session_inherits_runtime_type_from_profile` the
created session carries "ship" while the profile says "custom". -/
theorem C9_create_session_runtime_type :
    (createSession "sess-1" "sandbox-1" customProfile).1.desired_state
        = SessionStatus.pending ∧
    (createSession "sess-1" "sandbox-1" customProfile).1.observed_state
        = SessionStatus.pending ∧
    ((createSession "sess-1" "sandbox-1" customProfile).2.all Ev.isCommit)
        = true ∧
    (createSession "sess-1" "sandbox-1" customProfile).1.runtime_type
        = "ship" ∧
    customProfile.runtime_type = "custom" :=
  ⟨rfl, rfl, rfl, rfl, rfl⟩


/-- C1 counterexample: `c1Session` is neither ready nor starting, yet
`ensure_running` on it begins with the driver start call — no commit of
desired_state running / observed_state starting precedes the driver
interaction, because the commit of lines 135-137 only happens in the
`container_id is None` branch and `c1Session` already has a container. -/
theorem C1_counterexample :
    c1Session.is_ready = false ∧
    (c1Session.observed_state == SessionStatus.starting) = false ∧
    ((ensureRunning c1Behavior c1Session).2.head?.map Ev.isCommit)
      = some false :=
  ⟨rfl, rfl, rfl⟩

/-- C1 amended: if observed_state is starting, `ensure_running` raises
SessionNotReady with retry_after_ms 1000 and performs no driver call and
no commit; and when the session is not ready, not starting, and has no
container id yet, the first recorded event is the commit of
desired_state running / observed_state starting, ahead of every driver
call. When a container id already exists, the code reaches the driver
without such a commit (see the counterexample). -/
theorem C1_ensure_running_entry (s : Session) (b : DriverBehavior) :
    (s.observed_state = SessionStatus.starting →
      ensureRunning b s = (.error (mkSessionNotReady "Session is starting"
        (some s.sandbox_id) (some 1000)), [])) ∧
    (s.is_ready = false → s.observed_state ≠ SessionStatus.starting →
      s.container_id = none →
      (ensureRunning b s).2.head? = some (Ev.commit (startingState s))) := by
  constructor
  · intro hss
    exact ensureRunning_starting b s hss
  · intro hr hns hcn
    rw [ensureRunning_eq_phases b s hr hns]
    cases hce : b.createRes with
    | error e =>
      rw [createPhase_none_error b s e hcn hce]
      rfl
    | ok cid =>
      rw [createPhase_none_ok b s cid hcn hce]
      simp

/-- C1 witness: at a starting session `ensure_running` fails with
SessionNotReady carrying retry_after_ms 1000 and records no event; at a
fresh session the first event is the starting-state commit. -/
theorem C1_ensure_running_entry_witness :
    ensureRunning c1Behavior c1StartingSession
      = (.error (mkSessionNotReady "Session is starting"
          (some "sandbox-c1s") (some 1000)), []) ∧
    (ensureRunning c1Behavior c1FreshSession).2.head?
      = some (Ev.commit (startingState c1FreshSession)) :=
  ⟨(C1_ensure_running_entry c1StartingSession c1Behavior).1 rfl,
   (C1_ensure_running_entry c1FreshSession c1Behavior).2 rfl
     (by decide) rfl⟩


/-- C2 counterexample: when `driver.create` fails on a fresh session, the
error propagates to the caller but no state with observed_state failed is
ever committed — the recorded trace is exactly the starting-state commit
followed by the create call, so the last committed observed_state remains
starting. -/
theorem C2_counterexample :
    (ensureRunning c2Behavior c2Session).1 = .error (BayErr.driver "boom") ∧
    ((ensureRunning c2Behavior c2Session).2.any Ev.isFailedCommit) = false ∧
    (ensureRunning c2Behavior c2Session).2
      = [Ev.commit (startingState c2Session), Ev.driverCreate] :=
  ⟨rfl, rfl, rfl⟩

/-- C2 amended: if `driver.start` or the readiness probe fails, the
session's observed_state is set to failed and committed (the failed
commit is the last recorded event) and the error is re-raised; if
`driver.create` fails, the error is re-raised but no failed state is
committed (the last committed state remains the starting state). -/
theorem C2_failure_paths (s : Session) (b : DriverBehavior) (e : String)
    (hr : s.is_ready = false)
    (hns : s.observed_state ≠ SessionStatus.starting) :
    (s.container_id = none → b.createRes = .error e →
      (ensureRunning b s).1 = .error (BayErr.driver e) ∧
      ((ensureRunning b s).2.any Ev.isFailedCommit) = false) ∧
    (∀ cid, s.container_id = none → b.createRes = .ok cid →
      b.startRes = .error e →
      (ensureRunning b s).1 = .error (BayErr.driver e) ∧
      ((ensureRunning b s).2.getLast?.map Ev.isFailedCommit) = some true) ∧
    (∀ c, s.container_id = some c →
      s.observed_state ≠ SessionStatus.running →
      b.startRes = .error e →
      (ensureRunning b s).1 = .error (BayErr.driver e) ∧
      ((ensureRunning b s).2.getLast?.map Ev.isFailedCommit) = some true) ∧
    (∀ cid ep err, s.container_id = none → b.createRes = .ok cid →
      b.startRes = .ok ep → waitForReady b.probe s.id = .error err →
      (ensureRunning b s).1 = .error err ∧
      ((ensureRunning b s).2.getLast?.map Ev.isFailedCommit) = some true) ∧
    (∀ c ep err, s.container_id = some c →
      s.observed_state ≠ SessionStatus.running →
      b.startRes = .ok ep → waitForReady b.probe s.id = .error err →
      (ensureRunning b s).1 = .error err ∧
      ((ensureRunning b s).2.getLast?.map Ev.isFailedCommit) = some true) := by
  rw [ensureRunning_eq_phases b s hr hns]
  refine ⟨?_, ?_, ?_, ?_, ?_⟩
  · intro hcn hce
    rw [createPhase_none_error b s e hcn hce]
    exact ⟨rfl, rfl⟩
  · intro cid hcn hco hse
    rw [createPhase_none_ok b s cid hcn hco]
    dsimp only
    have hnr : ({ startingState s with container_id := some cid } : Session).observed_state
        ≠ SessionStatus.running := by
      simp [startingState]
    rw [startPhase_start_error b _ e hnr hse]
    exact ⟨rfl, rfl⟩
  · intro c hcs hnr hse
    rw [createPhase_some b s c hcs]
    dsimp only
    rw [startPhase_start_error b s e hnr hse]
    exact ⟨rfl, rfl⟩
  · intro cid ep err hcn hco hso hpe
    rw [createPhase_none_ok b s cid hcn hco]
    dsimp only
    have hnr : ({ startingState s with container_id := some cid } : Session).observed_state
        ≠ SessionStatus.running := by
      simp [startingState]
    have hid : ({ startingState s with container_id := some cid } : Session).id = s.id := rfl
    rw [startPhase_probe_error b _ ep err hnr hso (by rw [hid]; exact hpe)]
    exact ⟨rfl, rfl⟩
  · intro c ep err hcs hnr hso hpe
    rw [createPhase_some b s c hcs]
    dsimp only
    rw [startPhase_probe_error b s ep err hnr hso hpe]
    exact ⟨rfl, rfl⟩

/-- C2 witness: at a stopped session with a container and a failing
driver start, ensure_running re-raises the driver error and its last
recorded event is a failed-state commit. -/
theorem C2_failure_paths_witness :
    (ensureRunning c2StartFailBehavior c2StoppedSession).1
      = .error (BayErr.driver "start boom") ∧
    ((ensureRunning c2StartFailBehavior c2StoppedSession).2.getLast?.map
      Ev.isFailedCommit) = some true :=
  (C2_failure_paths c2StoppedSession c2StartFailBehavior "start boom"
    rfl (by decide)).2.2.1 "cont-c2b" rfl (by decide) rfl


/-- C3 counterexample: `refresh_status` on a running session holding an
endpoint, when the driver reports the container exited, commits
observed_state stopped while leaving the endpoint set — the committed
state violates the endpoint-iff-running invariant. -/
theorem C3_counterexample :
    (refreshStatus c3ExitedInfo c3Session).observed_state
      = SessionStatus.stopped ∧
    (refreshStatus c3ExitedInfo c3Session).endpoint
      = some "http://10.0.0.7:8123" ∧
    sessionInv (refreshStatus c3ExitedInfo c3Session) = false :=
  ⟨rfl, rfl, rfl⟩

/-- C3 amended: the endpoint-iff-running invariant is established by
`create`, preserved by every commit of a successful `ensure_running` run
from an invariant-satisfying session (and by its returned session), and
holds in the final committed state of `stop`; `destroy` commits no
session state. The error paths of `ensure_running` (failed commit after
the endpoint was assigned) and `refresh_status` on a stale endpoint are
excluded: they can violate the invariant, as the counterexample shows. -/
theorem C3_invariant (s : Session) (b : DriverBehavior) (i sb : String)
    (p : ProfileConfig) :
    (sessionInv s = true → ∀ t, (ensureRunning b s).1 = .ok t →
      sessionInv t = true ∧ ((ensureRunning b s).2.all Ev.commitInv) = true) ∧
    sessionInv (stopSession s).1 = true ∧
    sessionInv (createSession i sb p).1 = true ∧
    ((createSession i sb p).2.all Ev.commitInv) = true ∧
    ((destroySession s).all (fun ev => !ev.isCommit)) = true := by
  refine ⟨?_, rfl, rfl, rfl, ?_⟩
  · intro hinv t hok
    by_cases hready : s.is_ready = true
    · rw [ensureRunning_ready b s hready] at hok ⊢
      cases hok
      exact ⟨hinv, rfl⟩
    · have hr : s.is_ready = false := by
        simpa using hready
      by_cases hss : s.observed_state = SessionStatus.starting
      · rw [ensureRunning_starting b s hss] at hok
        simp at hok
      · have hro : s.observed_state ≠ SessionStatus.running := by
          intro hrun
          have hsome : s.endpoint.isSome = true := by
            simpa [sessionInv, hrun] using hinv
          have hrd : s.is_ready = true := by
            simp [Session.is_ready, hrun, hsome]
          exact hready hrd
        have hor : (s.observed_state == SessionStatus.running) = false := by
          simpa using hro
        have hnsome : s.endpoint.isSome = false := by
          simpa [sessionInv, hor] using hinv
        have hen : s.endpoint = none := by
          cases hcend : s.endpoint with
          | none => rfl
          | some v =>
            rw [hcend] at hnsome
            simp at hnsome
        rw [ensureRunning_eq_phases b s hr hss] at hok ⊢
        cases hsc : s.container_id with
        | none =>
          cases hco : b.createRes with
          | error e =>
            rw [createPhase_none_error b s e hsc hco] at hok ⊢
            simp at hok
          | ok cid =>
            rw [createPhase_none_ok b s cid hsc hco] at hok ⊢
            dsimp only at hok ⊢
            have hnr : ({ startingState s with container_id := some cid } :
                Session).observed_state ≠ SessionStatus.running := by
              simp [startingState]
            cases hse : b.startRes with
            | error e =>
              rw [startPhase_start_error b _ e hnr hse] at hok ⊢
              simp at hok
            | ok ep =>
              cases hpr : waitForReady b.probe
                  ({ startingState s with container_id := some cid } :
                    Session).id with
              | error err =>
                rw [startPhase_probe_error b _ ep err hnr hse hpr] at hok ⊢
                simp at hok
              | ok u =>
                cases u
                rw [startPhase_ok b _ ep hnr hse hpr] at hok ⊢
                dsimp only at hok ⊢
                cases hok
                constructor
                · simp [sessionInv, startingState]
                · simp [Ev.commitInv, sessionInv, startingState, hen]
        | some c =>
          rw [createPhase_some b s c hsc] at hok ⊢
          dsimp only at hok ⊢
          cases hse : b.startRes with
          | error e =>
            rw [startPhase_start_error b s e hro hse] at hok ⊢
            simp at hok
          | ok ep =>
            cases hpr : waitForReady b.probe s.id with
            | error err =>
              rw [startPhase_probe_error b s ep err hro hse hpr] at hok ⊢
              simp at hok
            | ok u =>
              cases u
              rw [startPhase_ok b s ep hro hse hpr] at hok ⊢
              dsimp only at hok ⊢
              cases hok
              constructor
              · simp [sessionInv]
              · simp [Ev.commitInv, sessionInv]
  · cases hsc : s.container_id with
    | none => simp [destroySession, hsc, Ev.isCommit]
    | some c => simp [destroySession, hsc, Ev.isCommit]

/-- C3 witness: from the invariant-satisfying stopped session with a
container, a fully successful run of `ensure_running` returns an
invariant-satisfying session and every state it committed satisfies the
invariant. -/
theorem C3_invariant_witness :
    sessionInv ({ c1Session with
      endpoint := some "http://10.0.0.5:8123",
      observed_state := SessionStatus.running } : Session) = true ∧
    ((ensureRunning c1Behavior c1Session).2.all Ev.commitInv) = true :=
  (C3_invariant c1Session c1Behavior "sess-w3" "sandbox-w3"
    customProfile).1 rfl
    ({ c1Session with
      endpoint := some "http://10.0.0.5:8123",
      observed_state := SessionStatus.running } : Session) rfl


/-- C8 counterexample: when the readiness budget is exhausted for
`c8Session`, the raised SessionNotReady carries the session's id
("sess-c8") in the `sandbox_id` detail rather than the sandbox's id
("sandbox-c8x"), because `_wait_for_ready` passes `session_id` as the
`sandbox_id` argument (session.py line 243). -/
theorem C8_counterexample :
    (ensureRunning c8Behavior c8Session).1
      = .error (BayErr.sessionNotReady "Runtime failed to become ready"
          { sandbox_id := some "sess-c8", retry_after_ms := some 1000 }) ∧
    c8Session.sandbox_id = "sandbox-c8x" ∧
    ("sess-c8" : String) ≠ "sandbox-c8x" :=
  ⟨rfl, rfl, by decide⟩

/-- C8 amended: every error raised by `ensure_running` has code
session_not_ready (HTTP 503) or internal_error (HTTP 500) — never
timeout/504; SessionNotReady errors map to code session_not_ready and
HTTP 503; and probe-budget exhaustion (all health responses failing)
surfaces as SessionNotReady whose details carry retry_after_ms 1000 and,
in the `sandbox_id` field, the session's id rather than the sandbox's. -/
theorem C8_probe_exhaustion_error (s : Session) (b : DriverBehavior) :
    (∀ e, (ensureRunning b s).1 = .error e →
        e.code ≠ "timeout" ∧ e.http_status ≠ 504) ∧
    (∀ m d, (BayErr.sessionNotReady m d).code = "session_not_ready" ∧
        (BayErr.sessionNotReady m d).http_status = 503) ∧
    (s.is_ready = false → s.observed_state ≠ SessionStatus.starting →
      s.id ≠ "" → (b.probe.all (fun r => r == false)) = true →
      (∀ cid ep, s.container_id = none → b.createRes = .ok cid →
        b.startRes = .ok ep →
        (ensureRunning b s).1 = .error (BayErr.sessionNotReady
          "Runtime failed to become ready"
          { sandbox_id := some s.id, retry_after_ms := some 1000 })) ∧
      (∀ c ep, s.container_id = some c →
        s.observed_state ≠ SessionStatus.running → b.startRes = .ok ep →
        (ensureRunning b s).1 = .error (BayErr.sessionNotReady
          "Runtime failed to become ready"
          { sandbox_id := some s.id, retry_after_ms := some 1000 }))) := by
  have main : ∀ e, (ensureRunning b s).1 = .error e →
      (e.code = "session_not_ready" ∧ e.http_status = 503) ∨
      (e.code = "internal_error" ∧ e.http_status = 500) := by
    intro e he
    by_cases hready : s.is_ready = true
    · rw [ensureRunning_ready b s hready] at he
      simp at he
    · have hr : s.is_ready = false := by simpa using hready
      by_cases hss : s.observed_state = SessionStatus.starting
      · rw [ensureRunning_starting b s hss] at he
        dsimp only at he
        cases he
        left
        exact ⟨rfl, rfl⟩
      · rw [ensureRunning_eq_phases b s hr hss] at he
        cases hsc : s.container_id with
        | none =>
          cases hco : b.createRes with
          | error e2 =>
            rw [createPhase_none_error b s e2 hsc hco] at he
            dsimp only at he
            cases he
            right
            exact ⟨rfl, rfl⟩
          | ok cid =>
            rw [createPhase_none_ok b s cid hsc hco] at he
            dsimp only at he
            have hnr : ({ startingState s with container_id := some cid } :
                Session).observed_state ≠ SessionStatus.running := by
              simp [startingState]
            cases hse : b.startRes with
            | error e2 =>
              rw [startPhase_start_error b _ e2 hnr hse] at he
              dsimp only at he
              cases he
              right
              exact ⟨rfl, rfl⟩
            | ok ep =>
              cases hpr : waitForReady b.probe
                  ({ startingState s with container_id := some cid } :
                    Session).id with
              | error err =>
                rw [startPhase_probe_error b _ ep err hnr hse hpr] at he
                dsimp only at he
                cases he
                have herr := waitForReady_error_eq _ b.probe e hpr
                rw [herr]
                left
                exact ⟨rfl, rfl⟩
              | ok u =>
                cases u
                rw [startPhase_ok b _ ep hnr hse hpr] at he
                simp at he
        | some c =>
          rw [createPhase_some b s c hsc] at he
          dsimp only at he
          by_cases hrun : s.observed_state = SessionStatus.running
          · rw [startPhase_running b s hrun] at he
            simp at he
          · cases hse : b.startRes with
            | error e2 =>
              rw [startPhase_start_error b s e2 hrun hse] at he
              dsimp only at he
              cases he
              right
              exact ⟨rfl, rfl⟩
            | ok ep =>
              cases hpr : waitForReady b.probe s.id with
              | error err =>
                rw [startPhase_probe_error b s ep err hrun hse hpr] at he
                dsimp only at he
                cases he
                have herr := waitForReady_error_eq _ b.probe e hpr
                rw [herr]
                left
                exact ⟨rfl, rfl⟩
              | ok u =>
                cases u
                rw [startPhase_ok b s ep hrun hse hpr] at he
                simp at he
  refine ⟨?_, fun m d => ⟨rfl, rfl⟩, ?_⟩
  · intro e he
    rcases main e he with ⟨h1, h2⟩ | ⟨h1, h2⟩ <;> rw [h1, h2] <;>
      exact ⟨by decide, by decide⟩
  · intro hr hns hid hall
    constructor
    · intro cid ep hcn hco hse
      rw [ensureRunning_eq_phases b s hr hns]
      rw [createPhase_none_ok b s cid hcn hco]
      dsimp only
      have hnr : ({ startingState s with container_id := some cid } :
          Session).observed_state ≠ SessionStatus.running := by
        simp [startingState]
      have hwf := waitForReady_all_false
        (({ startingState s with container_id := some cid } : Session).id)
        b.probe hall
      rw [startPhase_probe_error b _ ep _ hnr hse hwf]
      dsimp only
      simp [mkSessionNotReady, startingState, hid]
    · intro c ep hcs hrun hse
      rw [ensureRunning_eq_phases b s hr hns]
      rw [createPhase_some b s c hcs]
      dsimp only
      have hwf := waitForReady_all_false s.id b.probe hall
      rw [startPhase_probe_error b s ep _ hrun hse hwf]
      dsimp only
      simp [mkSessionNotReady, hid]

/-- C8 witness: exhausting the probe budget on `c8Session` yields the
SessionNotReady error with retry_after_ms 1000 and the session id in the
sandbox_id detail, and every error of that run is neither code timeout
nor HTTP 504. -/
theorem C8_probe_exhaustion_error_witness :
    (ensureRunning c8Behavior c8Session).1
      = .error (BayErr.sessionNotReady "Runtime failed to become ready"
          { sandbox_id := some "sess-c8", retry_after_ms := some 1000 }) ∧
    (BayErr.sessionNotReady "Runtime failed to become ready"
      { sandbox_id := some "sess-c8", retry_after_ms := some 1000 }).code
        ≠ "timeout" :=
  ⟨((C8_probe_exhaustion_error c8Session c8Behavior).2.2 rfl (by decide)
      (by decide) rfl).2 "cont-c8" "http://10.0.0.9:8123" rfl (by decide) rfl,
   ((C8_probe_exhaustion_error c8Session c8Behavior).1 _
      (((C8_probe_exhaustion_error c8Session c8Behavior).2.2 rfl (by decide)
        (by decide) rfl).2 "cont-c8" "http://10.0.0.9:8123" rfl (by decide)
        rfl)).1⟩


/-- C4 counterexample: the re-read inside `SandboxManager.ensure_running`
selects by id alone, so it returns the soft-deleted sandbox instead of
failing with NotFound. -/
theorem C4_counterexample :
    sandboxEnsureRunningReread c4Db "sandbox-c4" = .ok c4Deleted ∧
    c4Deleted.deleted_at = some 5 :=
  ⟨rfl, rfl⟩

/-- C4 amended: when every row with the given id is soft-deleted, Get,
Stop, Keepalive and Delete fail with NotFound and List omits the
sandbox (and returns only non-deleted rows); the re-read inside
`SandboxManager.ensure_running`, however, selects by id alone and can
return a soft-deleted row (see the counterexample). -/
theorem C4_soft_delete_invisibility (db : List Sandbox)
    (sandbox_id owner : String) (status : Option SandboxStatus)
    (limit : Nat) (cursor : Option String)
    (hdel : ∀ sb ∈ db, sb.id = sandbox_id → sb.deleted_at.isSome = true) :
    sandboxGet db sandbox_id owner
      = .error (BayErr.notFound ("Sandbox not found: " ++ sandbox_id)) ∧
    apiStop db sandbox_id owner
      = .error (BayErr.notFound ("Sandbox not found: " ++ sandbox_id)) ∧
    apiKeepalive db sandbox_id owner
      = .error (BayErr.notFound ("Sandbox not found: " ++ sandbox_id)) ∧
    apiDelete db sandbox_id owner
      = .error (BayErr.notFound ("Sandbox not found: " ++ sandbox_id)) ∧
    (∀ sb ∈ (sandboxList db owner status limit cursor).1,
      sb.id ≠ sandbox_id ∧ sb.deleted_at = none) := by
  have hfind : db.find? (fun sb =>
      sb.id == sandbox_id && sb.owner == owner && sb.deleted_at.isNone)
      = none := by
    rw [List.find?_eq_none]
    intro sb hsb
    intro hp
    simp only [Bool.and_eq_true, beq_iff_eq] at hp
    have hdead := hdel sb hsb hp.1.1
    rw [Option.isNone_iff_eq_none] at hp
    rw [hp.2] at hdead
    simp at hdead
  have hget : sandboxGet db sandbox_id owner
      = .error (BayErr.notFound ("Sandbox not found: " ++ sandbox_id)) := by
    simp [sandboxGet, hfind]
  refine ⟨hget, ?_, ?_, ?_, ?_⟩
  · simp [apiStop, hget]
  · simp [apiKeepalive, hget]
  · simp [apiDelete, hget]
  · intro sb hsb
    have hrows : sb ∈ (db.filter (listPred owner cursor)).take (limit + 1) := by
      by_cases hlen : ((db.filter (listPred owner cursor)).take
          (limit + 1)).length > limit
      · simp only [sandboxList, hlen, if_true] at hsb
        exact List.mem_of_mem_take hsb
      · simp only [sandboxList, hlen, if_false] at hsb
        exact hsb
    have hmem := List.mem_of_mem_take hrows
    have hpred := (List.mem_filter.1 hmem).2
    have hin := (List.mem_filter.1 hmem).1
    simp only [listPred, Bool.and_eq_true] at hpred
    have hnone : sb.deleted_at = none :=
      Option.isNone_iff_eq_none.1 hpred.1.2
    constructor
    · intro hidq
      have := hdel sb hin hidq
      rw [hnone] at this
      simp at this
    · exact hnone

/-- C4 witness: on a table holding only the soft-deleted `c4Deleted`,
Get under its owner fails with NotFound and List returns nothing. -/
theorem C4_soft_delete_invisibility_witness :
    sandboxGet c4Db "sandbox-c4" "owner-c4"
      = .error (BayErr.notFound ("Sandbox not found: " ++ "sandbox-c4")) ∧
    (∀ sb ∈ (sandboxList c4Db "owner-c4" none 50 none).1,
      sb.id ≠ "sandbox-c4" ∧ sb.deleted_at = none) :=
  ⟨(C4_soft_delete_invisibility c4Db "sandbox-c4" "owner-c4" none 50 none
      (by decide)).1,
   (C4_soft_delete_invisibility c4Db "sandbox-c4" "owner-c4" none 50 none
      (by decide)).2.2.2.2⟩


/-- C7 counterexample: with the status filter set to ready, `list` still
returns the idle sandbox `c7Sandbox` — the status parameter is accepted
but never applied to the query, so items whose derived status differs
from the filter are returned. -/
theorem C7_counterexample :
    (sandboxList c7Db "owner-c7" (some SandboxStatus.ready) 10 none).1
      = [c7Sandbox, c7Sandbox2] ∧
    computeStatus c7Sandbox none = SandboxStatus.idle ∧
    SandboxStatus.idle ≠ SandboxStatus.ready :=
  ⟨rfl, rfl, by decide⟩

/-- C7 amended: on an id-sorted table, `list` returns the non-deleted
sandboxes of the owner with id strictly greater than the cursor, in
ascending id order, truncated to `limit` items, and `next_cursor` is
null exactly when no further matching row exists, otherwise it is the id
of the last returned item; the supplied status filter is ignored. -/
theorem C7_list_pagination (db : List Sandbox) (owner : String)
    (status : Option SandboxStatus) (limit : Nat) (cursor : Option String)
    (hsorted : db.Pairwise (fun a b => a.id < b.id)) (hlim : 0 < limit) :
    (sandboxList db owner status limit cursor).1
      = (db.filter (listPred owner cursor)).take limit ∧
    (∀ sb ∈ (sandboxList db owner status limit cursor).1,
      sb.owner = owner ∧ sb.deleted_at = none ∧
      ∀ c, cursor = some c → c < sb.id) ∧
    (sandboxList db owner status limit cursor).1.length ≤ limit ∧
    (sandboxList db owner status limit cursor).1.Pairwise
      (fun a b => a.id < b.id) ∧
    ((sandboxList db owner status limit cursor).2 = none ↔
      (db.filter (listPred owner cursor)).length ≤ limit) ∧
    ((db.filter (listPred owner cursor)).length > limit →
      (sandboxList db owner status limit cursor).2
        = (sandboxList db owner status limit cursor).1.getLast?.map
            (fun sb => sb.id) ∧
      (sandboxList db owner status limit cursor).2 ≠ none) := by
  have hcond : (((db.filter (listPred owner cursor)).take (limit + 1)).length
      > limit) ↔ ((db.filter (listPred owner cursor)).length > limit) := by
    rw [List.length_take]
    omega
  have hmm : min limit (limit + 1) = limit := by omega
  by_cases hgt : (db.filter (listPred owner cursor)).length > limit
  · have h1 : sandboxList db owner status limit cursor
        = (((db.filter (listPred owner cursor)).take (limit + 1)).take limit,
           (((db.filter (listPred owner cursor)).take (limit + 1)).take
              limit).getLast?.map (fun sb => sb.id)) := by
      simp only [sandboxList, if_pos (hcond.2 hgt)]
    have htt : ((db.filter (listPred owner cursor)).take (limit + 1)).take limit
        = (db.filter (listPred owner cursor)).take limit := by
      rw [List.take_take, hmm]
    rw [h1, htt]
    have hne : (db.filter (listPred owner cursor)).take limit ≠ [] := by
      intro hnil
      have hl := congrArg List.length hnil
      rw [List.length_take] at hl
      simp only [List.length_nil] at hl
      omega
    refine ⟨rfl, ?_, ?_, ?_, ?_, ?_⟩
    · intro sb hsb
      have hmem := List.mem_of_mem_take hsb
      have hpred := (List.mem_filter.1 hmem).2
      simp only [listPred, Bool.and_eq_true, beq_iff_eq] at hpred
      refine ⟨hpred.1.1, Option.isNone_iff_eq_none.1 hpred.1.2, ?_⟩
      intro c hc
      have := hpred.2
      rw [hc] at this
      exact of_decide_eq_true this
    · rw [List.length_take]
      omega
    · exact ((hsorted.filter _).sublist (List.take_sublist _ _))
    · constructor
      · intro hmap
        rcases Option.isSome_iff_exists.1 (List.getLast?_isSome.2 hne)
          with ⟨x, hx⟩
        rw [hx] at hmap
        simp at hmap
      · intro hle
        omega
    · intro _
      refine ⟨rfl, ?_⟩
      rcases Option.isSome_iff_exists.1 (List.getLast?_isSome.2 hne)
        with ⟨x, hx⟩
      rw [hx]
      simp
  · have hle : (db.filter (listPred owner cursor)).length ≤ limit := by
      omega
    have hall : (db.filter (listPred owner cursor)).take (limit + 1)
        = db.filter (listPred owner cursor) := by
      apply List.take_of_length_le
      omega
    have h1 : sandboxList db owner status limit cursor
        = ((db.filter (listPred owner cursor)).take (limit + 1), none) := by
      simp only [sandboxList]
      rw [if_neg]
      intro hx
      exact hgt (hcond.1 hx)
    have htake : (db.filter (listPred owner cursor)).take limit
        = db.filter (listPred owner cursor) :=
      List.take_of_length_le hle
    rw [h1, hall, htake]
    refine ⟨rfl, ?_, hle, hsorted.filter _, ?_, ?_⟩
    · intro sb hsb
      have hpred := (List.mem_filter.1 hsb).2
      simp only [listPred, Bool.and_eq_true, beq_iff_eq] at hpred
      refine ⟨hpred.1.1, Option.isNone_iff_eq_none.1 hpred.1.2, ?_⟩
      intro c hc
      have := hpred.2
      rw [hc] at this
      exact of_decide_eq_true this
    · simp [hle]
    · intro hx
      omega

/-- C7 witness: with two matching rows and limit 1, `list` returns the
first row only, sorted, and next_cursor is its id (more pages exist);
the ignored ready filter does not restrict the result. -/
theorem C7_list_pagination_witness :
    (sandboxList c7Db "owner-c7" (some SandboxStatus.ready) 1 none).1
      = [c7Sandbox] ∧
    (sandboxList c7Db "owner-c7" (some SandboxStatus.ready) 1 none).2
      = some "sandbox-c7" ∧
    (sandboxList c7Db "owner-c7" (some SandboxStatus.ready) 1 none).2
      ≠ none := by
  have hsorted : c7Db.Pairwise (fun a b : Sandbox => a.id < b.id) := by
    refine List.Pairwise.cons ?_ (List.Pairwise.cons ?_ List.Pairwise.nil)
    · intro b hb
      have hb2 : b = c7Sandbox2 := by simpa [c7Db] using hb
      subst hb2
      show ("sandbox-c7" : String) < "sandbox-c8"
      rw [String.lt_iff_toList_lt]
      decide
    · intro b hb
      exact absurd hb (List.not_mem_nil b)
  have h := C7_list_pagination c7Db "owner-c7" (some SandboxStatus.ready) 1
    none hsorted (by decide)
  refine ⟨?_, ?_, (h.2.2.2.2.2 (by decide)).2⟩
  · rw [h.1]
    rfl
  · rw [(h.2.2.2.2.2 (by decide)).1, h.1]
    rfl


/-- C6: `IdempotencyService.check` returns null when disabled; raises
Conflict on an invalid key format; returns null when no (owner, key)
record exists; deletes the record and returns null when it is expired
(expires_at ≤ now); raises Conflict when the stored fingerprint differs
from the current request's; and otherwise returns the stored response
snapshot with its original status code. -/
theorem C6_idempotency_check (enabled : Bool) (db : List IdemRecord)
    (now : Nat) (owner key path method body : String) :
    (enabled = false →
      idemCheck enabled db now owner key path method body = .ok (none, db)) ∧
    (enabled = true → validate_key key = false →
      idemCheck enabled db now owner key path method body
        = .error (BayErr.conflict "Invalid Idempotency-Key format")) ∧
    (enabled = true → validate_key key = true →
      db.find? (fun r => r.owner == owner && r.key == key) = none →
      idemCheck enabled db now owner key path method body = .ok (none, db)) ∧
    (∀ r, enabled = true → validate_key key = true →
      db.find? (fun r => r.owner == owner && r.key == key) = some r →
      r.is_expired now = true →
      idemCheck enabled db now owner key path method body
        = .ok (none,
            db.eraseP (fun r2 => r2.owner == owner && r2.key == key))) ∧
    (∀ r, enabled = true → validate_key key = true →
      db.find? (fun r => r.owner == owner && r.key == key) = some r →
      r.is_expired now = false →
      r.request_fingerprint ≠ compute_fingerprint path method body →
      idemCheck enabled db now owner key path method body
        = .error (BayErr.conflict
          "Idempotency key already used with different request parameters")) ∧
    (∀ r, enabled = true → validate_key key = true →
      db.find? (fun r => r.owner == owner && r.key == key) = some r →
      r.is_expired now = false →
      r.request_fingerprint = compute_fingerprint path method body →
      idemCheck enabled db now owner key path method body
        = .ok (some ⟨r.response_snapshot, r.status_code⟩, db)) := by
  refine ⟨?_, ?_, ?_, ?_, ?_, ?_⟩
  · intro hdis
    simp [idemCheck, hdis]
  · intro hen hbad
    simp [idemCheck, hen, hbad]
  · intro hen hval hfind
    simp [idemCheck, hen, hval, hfind]
  · intro r hen hval hfind hexp
    simp [idemCheck, hen, hval, hfind, hexp]
  · intro r hen hval hfind hexp hfp
    have hfp2 : (r.request_fingerprint
        != compute_fingerprint path method body) = true := by
      simpa using hfp
    simp [idemCheck, hen, hval, hfind, hexp, hfp2]
  · intro r hen hval hfind hexp hfp
    have hfp2 : (r.request_fingerprint
        != compute_fingerprint path method body) = false := by
      simpa using hfp
    simp [idemCheck, hen, hval, hfind, hexp, hfp2]

/-- C6 witness: on a table holding `c6Record` (unexpired at time 5), a
matching re-request returns the stored snapshot with status 201, a
different body raises Conflict, an unknown key returns null, the expired
record (time 4000) is deleted and null returned, a bad key raises
Conflict, and the disabled service returns null. -/
theorem C6_idempotency_check_witness :
    idemCheck true [c6Record] 5 "owner-c6" "key-1" "/v1/sandboxes" "POST" "b1"
      = .ok (some ⟨"resp", 201⟩, [c6Record]) ∧
    idemCheck true [c6Record] 5 "owner-c6" "key-1" "/v1/sandboxes" "POST" "b2"
      = .error (BayErr.conflict
          "Idempotency key already used with different request parameters") ∧
    idemCheck true [c6Record] 4000 "owner-c6" "key-1" "/v1/sandboxes" "POST"
      "b1" = .ok (none, []) ∧
    idemCheck true [c6Record] 5 "owner-c6" "key-2" "/v1/sandboxes" "POST" "b1"
      = .ok (none, [c6Record]) ∧
    idemCheck true [c6Record] 5 "owner-c6" "bad key!" "/v1/sandboxes" "POST"
      "b1" = .error (BayErr.conflict "Invalid Idempotency-Key format") ∧
    idemCheck false [c6Record] 5 "owner-c6" "key-1" "/v1/sandboxes" "POST"
      "b1" = .ok (none, [c6Record]) := by
  have h1 := C6_idempotency_check true [c6Record] 5 "owner-c6" "key-1"
    "/v1/sandboxes" "POST" "b1"
  have h2 := C6_idempotency_check true [c6Record] 5 "owner-c6" "key-1"
    "/v1/sandboxes" "POST" "b2"
  have h3 := C6_idempotency_check true [c6Record] 4000 "owner-c6" "key-1"
    "/v1/sandboxes" "POST" "b1"
  have h4 := C6_idempotency_check true [c6Record] 5 "owner-c6" "key-2"
    "/v1/sandboxes" "POST" "b1"
  have h5 := C6_idempotency_check true [c6Record] 5 "owner-c6" "bad key!"
    "/v1/sandboxes" "POST" "b1"
  have h6 := C6_idempotency_check false [c6Record] 5 "owner-c6" "key-1"
    "/v1/sandboxes" "POST" "b1"
  refine ⟨h1.2.2.2.2.2 c6Record rfl (by decide) rfl rfl rfl,
    h2.2.2.2.2.1 c6Record rfl (by decide) rfl rfl (by decide),
    h3.2.2.2.1 c6Record rfl (by decide) rfl rfl,
    h4.2.2.1 rfl (by decide) rfl,
    h5.2.1 rfl (by decide),
    h6.1 rfl⟩

/-- C10: `IdempotencyService.save` always returns normally — when
disabled it writes nothing, when the insert fails it rolls back to the
pre-insert table, and on success it appends exactly the built record —
and the create-sandbox endpoint returns 201 with the created sandbox's
representation whenever the idempotency check passed, regardless of the
save outcome: a creation that succeeded is never failed by
idempotency-record persistence. -/
theorem C10_save_never_fails (enabled : Bool) (ttl_hours : Nat)
    (db db1 : List IdemRecord) (now : Nat)
    (owner key path method body response : String) (status_code : Nat)
    (saveFails : Bool) :
    (idemSave false ttl_hours db now owner key path method body response
      status_code saveFails = db) ∧
    (idemSave enabled ttl_hours db now owner key path method body response
      status_code true = db) ∧
    (idemSave true ttl_hours db now owner key path method body response
      status_code false
      = db ++ [IdemRecord.mk owner key
          (compute_fingerprint path method body) response status_code now
          (now + ttl_hours * 3600)]) ∧
    (idemCheck enabled db now owner key "/v1/sandboxes" "POST" body
        = .ok (none, db1) →
      (createSandboxEndpoint enabled ttl_hours db now owner body (some key)
        response saveFails).1 = .ok (201, response)) ∧
    ((createSandboxEndpoint enabled ttl_hours db now owner body none
      response saveFails) = (.ok (201, response), db)) := by
  refine ⟨?_, ?_, ?_, ?_, ?_⟩
  · simp [idemSave]
  · cases enabled <;> simp [idemSave]
  · simp [idemSave]
  · intro hchk
    simp [createSandboxEndpoint, hchk]
  · simp [createSandboxEndpoint]

/-- C10 witness: with the service enabled and a fresh key, a failing
record insert still lets the endpoint answer 201 with the response
body, and the rolled-back table is unchanged. -/
theorem C10_save_never_fails_witness :
    (createSandboxEndpoint true 1 [] 5 "owner-w" "b1" (some "key-w")
      "resp-w" true).1 = .ok (201, "resp-w") ∧
    idemSave true 1 [] 5 "owner-w" "key-w" "/v1/sandboxes" "POST" "b1"
      "resp-w" 201 true = [] :=
  ⟨(C10_save_never_fails true 1 [] [] 5 "owner-w" "key-w" "/v1/sandboxes"
      "POST" "b1" "resp-w" 201 true).2.2.2.1 rfl,
   (C10_save_never_fails true 1 [] [] 5 "owner-w" "key-w" "/v1/sandboxes"
      "POST" "b1" "resp-w" 201 true).2.1⟩

end Shipyard
